import Mathlib

/-!
Shallow embedding of the poly_discover strategy-discovery engine.

Numeric modelling conventions:
* `rust_decimal::Decimal` is modelled as `ℚ` with exact arithmetic (the source's
  96-bit mantissa limit and 28-digit division rounding are not modelled).
* `f64` intermediate computations (Sharpe/Sortino, annualisation) are modelled as
  exact real/rational arithmetic; `format!("{:.k}")`-then-parse round trips are
  modelled by rounding half-up at `k` decimal places (`roundTo` / `roundToR`).
* Rust `x.max(a).min(b)` / `x.clamp(a, b)` chains are embedded with `max`/`min`
  in the source's order.
-/

namespace PolyDiscover

/-- Rounds a rational to `n` decimal places (models `format!("{:.n}", x)` followed
by `Decimal::from_str_exact` / `parse`). -/
def roundTo (n : ℕ) (x : ℚ) : ℚ :=
  (⌊x * 10 ^ n + 1/2⌋ : ℚ) / 10 ^ n

/-- Rounds a real to `n` decimal places, landing in `ℚ` (models stringifying an
`f64` with `{:.n}` precision and parsing the result as a `Decimal`). -/
noncomputable def roundToR (n : ℕ) (x : ℝ) : ℚ :=
  ((⌊x * 10 ^ n + 1/2⌋ : ℤ) : ℚ) / 10 ^ n

/-! ## types.rs -/

/-- A single candlestick (OHLCV). The source field `open` is a Lean keyword and is
embedded as `open_price`. -/
structure Kline where
  open_time : ℤ
  open_price : ℚ
  high : ℚ
  low : ℚ
  close : ℚ
  volume : ℚ
  close_time : ℤ
deriving DecidableEq

/-- Side of a trade. -/
inductive TradeSide where
  | Buy
  | Sell
deriving DecidableEq

/-- A single trade executed during a backtest. -/
structure BacktestTrade where
  entry_time : ℤ
  exit_time : ℤ
  side : TradeSide
  entry_price : ℚ
  exit_price : ℚ
  size : ℚ
  pnl : ℚ
  pnl_pct : ℚ
deriving DecidableEq

/-- A point on the equity curve. -/
structure EquityPoint where
  time : ℤ
  equity : ℚ
deriving DecidableEq

/-! ## fees.rs -/

/-- Polymarket taker fee parameters. -/
structure PolymarketFeeConfig where
  fee_rate : ℚ
  exponent : ℕ
deriving DecidableEq

/-- `PolymarketFeeConfig::default()`: rate 0.25, exponent 2. -/
def PolymarketFeeConfig.default : PolymarketFeeConfig :=
  { fee_rate := 0.25, exponent := 2 }

/-- `calculate_taker_fee` from fees.rs: `fee = shares * rate * (p * (1 - p))^exponent`,
rounded down to 4 decimal places, dropped to 0 when below 0.0001; 0 when
`shares <= 0`, `price <= 0` or `price >= 1`.  The source computes
`base^exponent` by repeated multiplication. -/
def calculate_taker_fee (shares price : ℚ) (config : PolymarketFeeConfig) : ℚ :=
  if shares ≤ 0 ∨ price ≤ 0 ∨ 1 ≤ price then 0
  else
    let p_complement := 1 - price
    let base := price * p_complement
    let factor := base ^ config.exponent
    let raw_fee := shares * config.fee_rate * factor
    let rounded := (⌊raw_fee * 10000⌋ : ℚ) / 10000
    if rounded < 0.0001 then 0 else rounded

/-! ## discovery.rs — strategy descriptors -/

/-- The 10 base indicators (`SingleIndicatorType` in discovery.rs). -/
inductive SingleIndicatorType where
  | Rsi
  | BollingerBands
  | Macd
  | EmaCrossover
  | Stochastic
  | AtrMeanReversion
  | Vwap
  | Obv
  | WilliamsR
  | Adx
deriving DecidableEq, Fintype

/-- `SingleIndicatorType::all()`. -/
def SingleIndicatorType.all : List SingleIndicatorType :=
  [.Rsi, .BollingerBands, .Macd, .EmaCrossover, .Stochastic,
   .AtrMeanReversion, .Vwap, .Obv, .WilliamsR, .Adx]

/-- Parameters for each indicator type (`IndicatorParams` in discovery.rs);
`usize` fields become `ℕ`, `f64` fields become `ℚ`. -/
inductive IndicatorParams where
  | Rsi (period : ℕ) (overbought oversold : ℚ)
  | BollingerBands (period : ℕ) (multiplier : ℚ)
  | Macd (fast slow signal : ℕ)
  | EmaCrossover (fast_period slow_period : ℕ)
  | Stochastic (period : ℕ) (overbought oversold : ℚ)
  | AtrMeanReversion (atr_period sma_period : ℕ) (multiplier : ℚ)
  | Vwap (period : ℕ)
  | Obv (sma_period : ℕ)
  | WilliamsR (period : ℕ) (overbought oversold : ℚ)
  | Adx (period : ℕ) (adx_threshold : ℚ)
deriving DecidableEq

/-- `SingleIndicatorType::default_params()`. -/
def SingleIndicatorType.default_params : SingleIndicatorType → IndicatorParams
  | .Rsi => .Rsi 14 70 30
  | .BollingerBands => .BollingerBands 20 2
  | .Macd => .Macd 12 26 9
  | .EmaCrossover => .EmaCrossover 10 26
  | .Stochastic => .Stochastic 14 80 20
  | .AtrMeanReversion => .AtrMeanReversion 14 20 2
  | .Vwap => .Vwap 20
  | .Obv => .Obv 14
  | .WilliamsR => .WilliamsR 14 (-20) (-80)
  | .Adx => .Adx 14 25

/-- `SingleIndicatorType::aggressive_params()`. -/
def SingleIndicatorType.aggressive_params : SingleIndicatorType → IndicatorParams
  | .Rsi => .Rsi 7 65 35
  | .BollingerBands => .BollingerBands 10 1.5
  | .Macd => .Macd 6 17 5
  | .EmaCrossover => .EmaCrossover 5 15
  | .Stochastic => .Stochastic 7 75 25
  | .AtrMeanReversion => .AtrMeanReversion 7 10 1.5
  | .Vwap => .Vwap 10
  | .Obv => .Obv 7
  | .WilliamsR => .WilliamsR 7 (-15) (-85)
  | .Adx => .Adx 7 20

/-- `SingleIndicatorType::conservative_params()`. -/
def SingleIndicatorType.conservative_params : SingleIndicatorType → IndicatorParams
  | .Rsi => .Rsi 21 80 20
  | .BollingerBands => .BollingerBands 30 2.5
  | .Macd => .Macd 12 35 12
  | .EmaCrossover => .EmaCrossover 15 50
  | .Stochastic => .Stochastic 21 85 15
  | .AtrMeanReversion => .AtrMeanReversion 21 40 2.5
  | .Vwap => .Vwap 40
  | .Obv => .Obv 25
  | .WilliamsR => .WilliamsR 21 (-25) (-75)
  | .Adx => .Adx 21 30

/-- How to combine signals in a dynamic combo (`DynCombineMode`). -/
inductive DynCombineMode where
  | Unanimous
  | Majority
  | PrimaryConfirmed
deriving DecidableEq

/-- `DynCombineMode::all()`. -/
def DynCombineMode.all : List DynCombineMode :=
  [.Unanimous, .Majority, .PrimaryConfirmed]

/-- All strategy types the discovery agent can explore (`DiscoveryStrategyType`). -/
inductive DiscoveryStrategyType where
  | Rsi (period : ℕ) (overbought oversold : ℚ)
  | BollingerBands (period : ℕ) (multiplier : ℚ)
  | Macd (fast slow signal : ℕ)
  | EmaCrossover (fast_period slow_period : ℕ)
  | Stochastic (period : ℕ) (overbought oversold : ℚ)
  | AtrMeanReversion (atr_period sma_period : ℕ) (multiplier : ℚ)
  | RsiBollinger (rsi_period : ℕ) (rsi_ob rsi_os : ℚ) (bb_period : ℕ) (bb_mult : ℚ)
  | MacdRsi (macd_fast macd_slow macd_signal rsi_period : ℕ) (rsi_ob rsi_os : ℚ)
  | EmaRsi (ema_fast ema_slow rsi_period : ℕ) (rsi_ob rsi_os : ℚ)
  | StochRsi (stoch_period : ℕ) (stoch_ob stoch_os : ℚ) (rsi_period : ℕ) (rsi_ob rsi_os : ℚ)
  | MacdBollinger (macd_fast macd_slow macd_signal bb_period : ℕ) (bb_mult : ℚ)
  | TripleRsiMacdBb (rsi_period : ℕ) (rsi_ob rsi_os : ℚ) (macd_fast macd_slow macd_signal bb_period : ℕ) (bb_mult : ℚ)
  | TripleEmaRsiStoch (ema_fast ema_slow rsi_period : ℕ) (rsi_ob rsi_os : ℚ) (stoch_period : ℕ) (stoch_ob stoch_os : ℚ)
  | Vwap (period : ℕ)
  | Obv (sma_period : ℕ)
  | WilliamsR (period : ℕ) (overbought oversold : ℚ)
  | Adx (period : ℕ) (adx_threshold : ℚ)
  | VwapRsi (vwap_period rsi_period : ℕ) (rsi_overbought rsi_oversold : ℚ)
  | ObvMacd (obv_sma_period macd_fast macd_slow macd_signal : ℕ)
  | AdxEma (adx_period : ℕ) (adx_threshold : ℚ) (ema_fast ema_slow : ℕ)
  | WilliamsRStoch (wr_period : ℕ) (wr_overbought wr_oversold : ℚ) (stoch_period : ℕ)
      (stoch_overbought stoch_oversold : ℚ)
  | DynamicCombo (indicators : List SingleIndicatorType) (params : List IndicatorParams)
      (combine_mode : DynCombineMode)
  | Gabagool (max_pair_cost bid_offset spread_multiplier : ℚ)
deriving DecidableEq

/-- `DiscoveryStrategyType::is_gabagool()`. -/
def DiscoveryStrategyType.is_gabagool : DiscoveryStrategyType → Bool
  | .Gabagool _ _ _ => true
  | _ => false

/-- Whether a descriptor is a `DynamicCombo`. -/
def DiscoveryStrategyType.isDynamicCombo : DiscoveryStrategyType → Bool
  | .DynamicCombo _ _ _ => true
  | _ => false

/-- Whether a descriptor is a `DynamicCombo` that mentions the given base indicator. -/
def DiscoveryStrategyType.mentionsIndicator (ind : SingleIndicatorType) :
    DiscoveryStrategyType → Bool
  | .DynamicCombo indicators _ _ => indicators.contains ind
  | _ => false

/-- Number of indicators of a `DynamicCombo` descriptor (0 for any other variant). -/
def DiscoveryStrategyType.comboSize : DiscoveryStrategyType → ℕ
  | .DynamicCombo indicators _ _ => indicators.length
  | _ => 0

/-- Position sizing mode (`SizingMode`). -/
inductive SizingMode where
  | Fixed
  | Kelly
  | ConfidenceWeighted
deriving DecidableEq

/-- A single scored discovery result (`DiscoveryResult`). -/
structure DiscoveryResult where
  rank : ℕ
  strategy_type : DiscoveryStrategyType
  strategy_name : String
  symbol : String
  sizing_mode : SizingMode
  composite_score : ℚ
  net_pnl : ℚ
  gross_pnl : ℚ
  total_fees : ℚ
  win_rate : ℚ
  total_trades : ℕ
  sharpe_ratio : ℚ
  max_drawdown_pct : ℚ
  profit_factor : ℚ
  avg_trade_pnl : ℚ
  sortino_ratio : ℚ
  max_consecutive_losses : ℕ
  avg_win_pnl : ℚ
  avg_loss_pnl : ℚ
  total_volume : ℚ
  annualized_return_pct : ℚ
  annualized_sharpe : ℚ
  strategy_confidence : ℚ
  hit_rate : Option ℚ
  avg_locked_profit : Option ℚ

/-! ## discovery.rs — composite scorer -/

/-- `score_result` from discovery.rs: composite score of a `DiscoveryResult`. -/
def score_result (result : DiscoveryResult) (initial_capital : ℚ) : ℚ :=
  if result.total_trades < 5 then -9999
  else
    let net_pnl := result.net_pnl
    let win_rate_bonus :=
      if 70 ≤ result.win_rate then (result.win_rate - 50) * 3
      else if 55 ≤ result.win_rate then (result.win_rate - 50) * 2
      else (result.win_rate - 50) * 1
    let sharpe_bonus := result.sharpe_ratio * 100
    let drawdown_penalty := result.max_drawdown_pct * 3
    let pf_bonus :=
      if 1 < result.profit_factor then (result.profit_factor - 1) * 50
      else (result.profit_factor - 1) * 100
    let explosive_bonus :=
      if 0 < initial_capital ∧ initial_capital * 0.20 < net_pnl then (200 : ℚ) else 0
    let confidence_bonus := result.strategy_confidence * 3
    let sortino_capped := min result.sortino_ratio 5
    let sortino_bonus := sortino_capped * 50
    let streak_penalty :=
      if 10 < result.max_consecutive_losses then (100 : ℚ)
      else if 7 < result.max_consecutive_losses then 50
      else 0
    net_pnl + win_rate_bonus + sharpe_bonus - drawdown_penalty + pf_bonus + explosive_bonus
      + confidence_bonus + sortino_bonus - streak_penalty

/-! ## discovery.rs — Phase-1 grid -/

/-- All ordered index pairs `(i, j)` with `i < j`, as values: mirrors the nested
`for i { for j in i+1.. }` loops of `generate_phase1_grid`. -/
def pairsOf {α : Type} : List α → List (α × α)
  | [] => []
  | x :: xs => (xs.map fun y => (x, y)) ++ pairsOf xs

/-- All ordered triples, mirroring the three nested index loops. -/
def triplesOf {α : Type} : List α → List (α × α × α)
  | [] => []
  | x :: xs => ((pairsOf xs).map fun p => (x, p.1, p.2)) ++ triplesOf xs

/-- All ordered quadruples, mirroring the four nested index loops. -/
def quadsOf {α : Type} : List α → List (α × α × α × α)
  | [] => []
  | x :: xs => ((triplesOf xs).map fun t => (x, t.1, t.2.1, t.2.2)) ++ quadsOf xs

/-- The three parameter-profile functions used by the Phase-1 grid. -/
def phase1ParamVariants : List (SingleIndicatorType → IndicatorParams) :=
  [SingleIndicatorType.default_params, SingleIndicatorType.aggressive_params,
   SingleIndicatorType.conservative_params]

/-- Pairs block of `generate_phase1_grid`: C(10,2) × 3 profiles × 3 modes. -/
def phase1Pairs : List DiscoveryStrategyType :=
  (pairsOf SingleIndicatorType.all).flatMap fun p =>
    phase1ParamVariants.flatMap fun param_fn =>
      DynCombineMode.all.map fun mode =>
        .DynamicCombo [p.1, p.2] [param_fn p.1, param_fn p.2] mode

/-- Triples block: C(10,3) × 3 profiles × 3 modes. -/
def phase1Triples : List DiscoveryStrategyType :=
  (triplesOf SingleIndicatorType.all).flatMap fun t =>
    phase1ParamVariants.flatMap fun param_fn =>
      DynCombineMode.all.map fun mode =>
        .DynamicCombo [t.1, t.2.1, t.2.2] [param_fn t.1, param_fn t.2.1, param_fn t.2.2] mode

/-- Quadruples block: C(10,4) × default params × Majority mode only. -/
def phase1Quads : List DiscoveryStrategyType :=
  (quadsOf SingleIndicatorType.all).map fun q =>
    .DynamicCombo [q.1, q.2.1, q.2.2.1, q.2.2.2]
      [q.1.default_params, q.2.1.default_params, q.2.2.1.default_params, q.2.2.2.default_params]
      .Majority

/-- Gabagool block: 4 max-pair-costs × 4 bid-offsets × 3 spread-multipliers. -/
def phase1Gabagool : List DiscoveryStrategyType :=
  [(0.92 : ℚ), 0.94, 0.96, 0.98].flatMap fun mpc =>
    [(0.005 : ℚ), 0.01, 0.02, 0.03].flatMap fun bo =>
      [(2 : ℚ), 3, 5].map fun sm =>
        .Gabagool mpc bo sm

/-- `generate_phase1_grid` from discovery.rs: the four blocks pushed in order. -/
def generate_phase1_grid : List DiscoveryStrategyType :=
  phase1Pairs ++ phase1Triples ++ phase1Quads ++ phase1Gabagool

/-! ## discovery.rs — ML-guided grid budget -/

/-- Total candidate budget of `generate_ml_guided_grid`:
`(300 + cycle as usize * 50).min(1000)`. -/
def ml_guided_total_budget (cycle : ℕ) : ℕ :=
  min (300 + cycle * 50) 1000

/-- Exploitation budget: `total_budget * 60 / 100` (integer division). -/
def ml_guided_exploit_budget (cycle : ℕ) : ℕ :=
  ml_guided_total_budget cycle * 60 / 100

/-- Crossover budget: `total_budget * 20 / 100` (integer division). -/
def ml_guided_crossover_budget (cycle : ℕ) : ℕ :=
  ml_guided_total_budget cycle * 20 / 100

/-- Exploration budget: the remainder of the total budget. -/
def ml_guided_explore_budget (cycle : ℕ) : ℕ :=
  ml_guided_total_budget cycle - ml_guided_exploit_budget cycle - ml_guided_crossover_budget cycle

/-! ## indicators.rs — signals and the combo generator -/

/-- Trading signal (`Signal` in strategy.rs). -/
inductive Signal where
  | Buy
  | Sell
  | Hold
deriving DecidableEq

/-- A signal combined with a confidence score (`SignalWithConfidence`). -/
structure SignalWithConfidence where
  signal : Signal
  confidence : ℚ
deriving DecidableEq

/-- `SignalWithConfidence::hold()`. -/
def SignalWithConfidence.hold : SignalWithConfidence :=
  { signal := .Hold, confidence := 0 }

/-- `SignalWithConfidence::buy(confidence)`: confidence clamped into [0.3, 1.0]. -/
def SignalWithConfidence.buy (confidence : ℚ) : SignalWithConfidence :=
  { signal := .Buy, confidence := min (max confidence 0.3) 1 }

/-- `SignalWithConfidence::sell(confidence)`: confidence clamped into [0.3, 1.0]. -/
def SignalWithConfidence.sell (confidence : ℚ) : SignalWithConfidence :=
  { signal := .Sell, confidence := min (max confidence 0.3) 1 }

/-- How to combine signals from multiple generators (`CombineMode` in indicators.rs). -/
inductive CombineMode where
  | Unanimous
  | Majority
  | PrimaryConfirmed
deriving DecidableEq

/-- `ComboSignalGenerator::on_bar`, abstracted over the sub-generators' per-bar
results (the sub-generator list is stateful in the source; its outputs for the
current bar are received here as `signals`, in sub-generator order).  On an empty
sub-list in Unanimous/Majority mode the source computes a `0.0 / 0` NaN
confidence; the `ℚ` model yields `0 / 0 = 0` there instead (not claim-relevant). -/
def combo_on_bar (mode : CombineMode) (signals : List SignalWithConfidence) :
    SignalWithConfidence :=
  match mode with
  | .Unanimous =>
      let buy_count := (signals.filter fun s => s.signal == .Buy).length
      let sell_count := (signals.filter fun s => s.signal == .Sell).length
      let total := signals.length
      if buy_count = total then
        .buy ((signals.map (·.confidence)).sum / (total : ℚ))
      else if sell_count = total then
        .sell ((signals.map (·.confidence)).sum / (total : ℚ))
      else .hold
  | .Majority =>
      let buy_count := (signals.filter fun s => s.signal == .Buy).length
      let sell_count := (signals.filter fun s => s.signal == .Sell).length
      let threshold := (signals.length + 1) / 2
      if threshold ≤ buy_count then
        .buy (((signals.filter fun s => s.signal == .Buy).map (·.confidence)).sum
          / (buy_count : ℚ))
      else if threshold ≤ sell_count then
        .sell (((signals.filter fun s => s.signal == .Sell).map (·.confidence)).sum
          / (sell_count : ℚ))
      else .hold
  | .PrimaryConfirmed =>
      match signals with
      | [] => .hold
      | primary :: rest =>
          if primary.signal == .Hold then .hold
          else if rest.any fun s => s.signal == primary.signal || s.signal == .Hold then
            primary
          else .hold

/-! ## discovery.rs — generic bar-by-bar backtest evaluator -/

/-- An open position during an evaluation (`OpenPosition`). -/
structure OpenPosition where
  entry_price : ℚ
  size : ℚ
deriving DecidableEq

/-- The mutable per-evaluation state of `run_generic_backtest`'s main loop. -/
structure BtState where
  equity : ℚ
  peak_equity : ℚ
  max_drawdown_pct : ℚ
  position : Option OpenPosition
  trades : List BacktestTrade
  recent_wins : ℕ
  recent_total : ℕ
  recent_avg_win : ℚ
  recent_avg_loss : ℚ
deriving DecidableEq

/-- Initial evaluator state: `equity = peak_equity = initial_capital`, no position,
no trades, empty Kelly window. -/
def initBtState (initial_capital : ℚ) : BtState :=
  { equity := initial_capital
    peak_equity := initial_capital
    max_drawdown_pct := 0
    position := none
    trades := []
    recent_wins := 0
    recent_total := 0
    recent_avg_win := 0
    recent_avg_loss := 0 }

/-- `estimate_poly_probability` from discovery.rs: maps a price change vs the
baseline to a probability in [0.05, 0.95], formatted at 4 decimals. -/
def estimate_poly_probability (entry_price current_price : ℚ) : ℚ :=
  if entry_price ≤ 0 then 0.50
  else
    let change_pct := (current_price - entry_price) / entry_price * 100
    roundTo 4 (min (max (0.5 + change_pct * 0.05) 0.05) 0.95)

/-- The position-size percentage computed on a Buy signal with no open position
(the `size_pct` match in `run_generic_backtest`).  The Kelly branch reads the
sliding-window fields of the state; ConfidenceWeighted rounds the `f64`
confidence at 4 decimals as the source's format-then-parse does. -/
def compute_size_pct (sizing_mode : SizingMode) (st : BtState)
    (confidence base_position_pct : ℚ) : ℚ :=
  match sizing_mode with
  | .Fixed => base_position_pct
  | .Kelly =>
      if 10 ≤ st.recent_total ∧ 0 < st.recent_avg_loss then
        let p : ℚ := (st.recent_wins : ℚ) / (st.recent_total : ℚ)
        let b : ℚ := st.recent_avg_win / st.recent_avg_loss
        let q : ℚ := 1 - p
        let kelly := if 0 < b then ((p * b - q) / b) * 100 else 0
        min (max kelly 0) 25
      else base_position_pct
  | .ConfidenceWeighted => base_position_pct * roundTo 4 confidence

/-- The Kelly sliding-window update performed after a closed trade
(`recent_total += 1` then the win/loss running-mean update). -/
def updateKelly (st : BtState) (pnl : ℚ) : BtState :=
  let recent_total := st.recent_total + 1
  if 0 < pnl then
    let recent_wins := st.recent_wins + 1
    let recent_avg_win :=
      if 0 < recent_wins then
        (st.recent_avg_win * ((recent_wins - 1 : ℕ) : ℚ) + pnl) / (recent_wins : ℚ)
      else pnl
    { st with recent_total := recent_total, recent_wins := recent_wins,
              recent_avg_win := recent_avg_win }
  else
    let losses := recent_total - st.recent_wins
    let recent_avg_loss :=
      if 0 < losses then
        (st.recent_avg_loss * ((losses - 1 : ℕ) : ℚ) + |pnl|) / (losses : ℚ)
      else |pnl|
    { st with recent_total := recent_total, recent_avg_loss := recent_avg_loss }

/-- The per-bar drawdown tracking at the bottom of the evaluator loop. -/
def trackDrawdown (st : BtState) (k : Kline) : BtState :=
  let unrealized :=
    match st.position with
    | some pos => (k.close - pos.entry_price) * pos.size
    | none => 0
  let current_equity := st.equity + unrealized
  let peak_equity := if st.peak_equity < current_equity then current_equity else st.peak_equity
  let max_drawdown_pct :=
    if 0 < peak_equity then
      let dd_pct := (peak_equity - current_equity) / peak_equity * 100
      if st.max_drawdown_pct < dd_pct then dd_pct else st.max_drawdown_pct
    else st.max_drawdown_pct
  { st with peak_equity := peak_equity, max_drawdown_pct := max_drawdown_pct }

/-- One iteration of the `for kline in klines` loop of `run_generic_backtest`,
given the generator's signal for this bar.  The `size_pct <= 0` case models the
source's `continue`, which skips the drawdown tracking for that bar. -/
def btStep (fee_config : PolymarketFeeConfig) (sizing_mode : SizingMode)
    (base_position_pct baseline_price : ℚ) (st : BtState) (k : Kline)
    (sig : SignalWithConfidence) : BtState :=
  match sig.signal with
  | .Buy =>
      match st.position with
      | none =>
          let size_pct := compute_size_pct sizing_mode st sig.confidence base_position_pct
          if size_pct ≤ 0 then st
          else
            let position_value := st.equity * size_pct / 100
            let shares := position_value / k.close
            let p_entry := estimate_poly_probability baseline_price k.close
            let entry_fee := calculate_taker_fee shares p_entry fee_config
            trackDrawdown
              { st with equity := st.equity - entry_fee,
                        position := some { entry_price := k.close, size := shares } } k
      | some _ => trackDrawdown st k
  | .Sell =>
      match st.position with
      | some pos =>
          let pnl := (k.close - pos.entry_price) * pos.size
          let p_exit := estimate_poly_probability baseline_price k.close
          let exit_fee := calculate_taker_fee pos.size p_exit fee_config
          let pnl_pct :=
            if 0 < pos.entry_price then (k.close - pos.entry_price) / pos.entry_price * 100
            else 0
          let trade : BacktestTrade :=
            { entry_time := 0, exit_time := k.open_time, side := .Buy,
              entry_price := pos.entry_price, exit_price := k.close, size := pos.size,
              pnl := pnl, pnl_pct := pnl_pct }
          trackDrawdown
            (updateKelly
              { st with equity := st.equity + pnl - exit_fee, position := none,
                        trades := st.trades ++ [trade] } pnl) k
      | none => trackDrawdown st k
  | .Hold => trackDrawdown st k

/-- The evaluator's main loop, threading the generator state (`gen_step`, `gs`)
through `on_bar` exactly once per bar, in order. -/
def btLoop {σ : Type} (fee_config : PolymarketFeeConfig) (sizing_mode : SizingMode)
    (base_position_pct baseline_price : ℚ)
    (gen_step : σ → Kline → σ × SignalWithConfidence) :
    σ → BtState → List Kline → BtState
  | _, st, [] => st
  | gs, st, k :: rest =>
      let next := gen_step gs k
      btLoop fee_config sizing_mode base_position_pct baseline_price gen_step
        next.1 (btStep fee_config sizing_mode base_position_pct baseline_price st k next.2) rest

/-- The end-of-data force close: any remaining position is closed at the last
bar's close (the appended trade carries `entry_time = 0`). -/
def forceClose (fee_config : PolymarketFeeConfig) (baseline_price : ℚ)
    (klines : List Kline) (st : BtState) : BtState :=
  match st.position, klines.getLast? with
  | some pos, some last =>
      let pnl := (last.close - pos.entry_price) * pos.size
      let p_exit := estimate_poly_probability baseline_price last.close
      let exit_fee := calculate_taker_fee pos.size p_exit fee_config
      let trade : BacktestTrade :=
        { entry_time := 0, exit_time := last.open_time, side := .Buy,
          entry_price := pos.entry_price, exit_price := last.close, size := pos.size,
          pnl := pnl,
          pnl_pct :=
            if 0 < pos.entry_price then (last.close - pos.entry_price) / pos.entry_price * 100
            else 0 }
      { st with equity := st.equity + pnl - exit_fee, position := none,
                trades := st.trades ++ [trade] }
  | some _, none => { st with position := none }
  | none, _ => st

/-- The first bar's close, used as the probability baseline
(`klines.first().map(|k| k.close).unwrap_or(dec!(1))`). -/
def baselineOf (klines : List Kline) : ℚ :=
  (klines.head?.map Kline.close).getD 1

/-- The trading part of `run_generic_backtest`: loop over all bars, then force
close, producing the final evaluator state (equity, drawdown, trades, Kelly
window). -/
def backtestCore {σ : Type} (gen_step : σ → Kline → σ × SignalWithConfidence)
    (gen_init : σ) (klines : List Kline) (initial_capital base_position_pct : ℚ)
    (sizing_mode : SizingMode) (fee_config : PolymarketFeeConfig) : BtState :=
  let baseline_price := baselineOf klines
  forceClose fee_config baseline_price klines
    (btLoop fee_config sizing_mode base_position_pct baseline_price gen_step
      gen_init (initBtState initial_capital) klines)

/-! ## discovery.rs — per-trade metric helpers

Sharpe/Sortino convert the `Decimal` pnl percentages through `f64`; the model
uses exact rationals, with `Real.sqrt` for the standard deviations and
`roundToR 2` for the final `format!("{:.2}")`-then-parse step.  The source's
`unwrap_or` fallbacks fire only on `f64`/`Decimal` conversion failure and are
not representable in the exact model. -/

/-- `calculate_sharpe` from discovery.rs: mean over sample standard deviation
(n−1) of the per-trade pnl percentages; 0 when fewer than 2 trades or the
standard deviation is below 1e-10; result formatted at 2 decimals. -/
noncomputable def calculate_sharpe (trades : List BacktestTrade) : ℚ :=
  if trades.length < 2 then 0
  else
    let returns := trades.map (·.pnl_pct)
    let n : ℚ := (returns.length : ℚ)
    let mean := returns.sum / n
    let variance := ((returns.map fun r => (r - mean) ^ 2).sum) / (n - 1)
    let std_dev : ℝ := Real.sqrt (variance : ℝ)
    if std_dev < 1 / 10 ^ 10 then 0
    else roundToR 2 ((mean : ℝ) / std_dev)

/-- `calculate_sortino` from discovery.rs: with no negative returns, `mean * 10`
formatted at 2 decimals when the mean is positive (no cap — the literal `99`
in the source is only the `unwrap_or` fallback of the string conversion), else 0;
with negative returns, mean over the root-mean-square of the negative returns,
0 when that downside deviation is below 1e-10. -/
noncomputable def calculate_sortino (trades : List BacktestTrade) : ℚ :=
  if trades.length < 2 then 0
  else
    let returns := trades.map (·.pnl_pct)
    let n : ℚ := (returns.length : ℚ)
    let mean := returns.sum / n
    let negative_returns := returns.filter fun r => r < 0
    if negative_returns.isEmpty then
      if 0 < mean then roundTo 2 (mean * 10) else 0
    else
      let neg_n : ℚ := (negative_returns.length : ℚ)
      let neg_variance := ((negative_returns.map fun r => r ^ 2).sum) / neg_n
      let downside_dev : ℝ := Real.sqrt (neg_variance : ℝ)
      if downside_dev < 1 / 10 ^ 10 then 0
      else roundToR 2 ((mean : ℝ) / downside_dev)

/-- The `max_consecutive_losses` fold of `run_generic_backtest`: longest run of
trades with `pnl < 0`. -/
def maxConsecutiveLosses (trades : List BacktestTrade) : ℕ :=
  (trades.foldl
    (fun acc t =>
      if t.pnl < 0 then (max acc.1 (acc.2 + 1), acc.2 + 1) else (acc.1, 0))
    ((0, 0) : ℕ × ℕ)).1

/-- Metrics record produced by `run_generic_backtest` (`GenericBacktestResult`). -/
structure GenericBacktestResult where
  total_pnl : ℚ
  total_fees : ℚ
  total_trades : ℕ
  winning_trades : ℕ
  losing_trades : ℕ
  win_rate : ℚ
  sharpe_ratio : ℚ
  max_drawdown_pct : ℚ
  profit_factor : ℚ
  avg_trade_pnl : ℚ
  sortino_ratio : ℚ
  max_consecutive_losses : ℕ
  avg_win_pnl : ℚ
  avg_loss_pnl : ℚ
  total_volume : ℚ
  annualized_return_pct : ℚ
  annualized_sharpe : ℚ

/-- `run_generic_backtest` from discovery.rs: replay all bars through the
generator, force-close, and assemble the metrics record. -/
noncomputable def run_generic_backtest {σ : Type}
    (gen_step : σ → Kline → σ × SignalWithConfidence) (gen_init : σ)
    (klines : List Kline) (initial_capital base_position_pct : ℚ)
    (sizing_mode : SizingMode) (fee_config : PolymarketFeeConfig) :
    GenericBacktestResult :=
  let baseline_price := baselineOf klines
  let final := backtestCore gen_step gen_init klines initial_capital base_position_pct
    sizing_mode fee_config
  let trades := final.trades
  let total_trades := trades.length
  let winning_trades := (trades.filter fun t => 0 < t.pnl).length
  let losing_trades := total_trades - winning_trades
  let win_rate :=
    if 0 < total_trades then (winning_trades : ℚ) / (total_trades : ℚ) * 100 else 0
  let total_pnl := final.equity - initial_capital
  let total_fees :=
    (trades.map fun t =>
      calculate_taker_fee t.size (estimate_poly_probability baseline_price t.entry_price)
        fee_config
      + calculate_taker_fee t.size (estimate_poly_probability baseline_price t.exit_price)
        fee_config).sum
  let gross_profits := ((trades.filter fun t => 0 < t.pnl).map (·.pnl)).sum
  let gross_losses := ((trades.filter fun t => t.pnl < 0).map fun t => |t.pnl|).sum
  let profit_factor :=
    if 0 < gross_losses then gross_profits / gross_losses
    else if 0 < gross_profits then (999.99 : ℚ)
    else 0
  let sharpe_ratio := calculate_sharpe trades
  let avg_trade_pnl := if 0 < total_trades then total_pnl / (total_trades : ℚ) else 0
  let sortino_ratio := calculate_sortino trades
  let max_consecutive_losses := maxConsecutiveLosses trades
  let avg_win_pnl :=
    if 0 < winning_trades then gross_profits / (winning_trades : ℚ) else 0
  let avg_loss_pnl :=
    if 0 < losing_trades then gross_losses / (losing_trades : ℚ) else 0
  let total_volume := (trades.map fun t => t.size * t.entry_price).sum
  let period_bars : ℝ := (klines.length : ℝ)
  let period_days : ℝ := period_bars / 96
  let annualized_return_pct :=
    if 0 < period_days ∧ 0 < initial_capital then
      let total_return : ℝ := ((total_pnl / initial_capital : ℚ) : ℝ)
      let annual_factor : ℝ := 365 / period_days
      let annualized : ℝ := ((1 + total_return) ^ annual_factor - 1) * 100
      roundToR 2 (min (max annualized (-999.99)) 99999.99)
    else 0
  let annualized_sharpe :=
    if 0 < period_days then
      roundToR 2 ((sharpe_ratio : ℝ) * Real.sqrt (365 / period_days))
    else 0
  { total_pnl := total_pnl
    total_fees := total_fees
    total_trades := total_trades
    winning_trades := winning_trades
    losing_trades := losing_trades
    win_rate := win_rate
    sharpe_ratio := sharpe_ratio
    max_drawdown_pct := final.max_drawdown_pct
    profit_factor := profit_factor
    avg_trade_pnl := avg_trade_pnl
    sortino_ratio := sortino_ratio
    max_consecutive_losses := max_consecutive_losses
    avg_win_pnl := avg_win_pnl
    avg_loss_pnl := avg_loss_pnl
    total_volume := total_volume
    annualized_return_pct := annualized_return_pct
    annualized_sharpe := annualized_sharpe }

/-- The decimal-to-string serialisation of a metrics record, as stored in the
persistence layer's stringified-decimal columns. -/
noncomputable def stringifiedMetrics (r : GenericBacktestResult) : List String :=
  [toString r.total_pnl, toString r.total_fees, toString r.total_trades,
   toString r.winning_trades, toString r.losing_trades, toString r.win_rate,
   toString r.sharpe_ratio, toString r.max_drawdown_pct, toString r.profit_factor,
   toString r.avg_trade_pnl, toString r.sortino_ratio,
   toString r.max_consecutive_losses, toString r.avg_win_pnl, toString r.avg_loss_pnl,
   toString r.total_volume, toString r.annualized_return_pct,
   toString r.annualized_sharpe]

/-! ## gabagool.rs — binary arbitrage backtest engine -/

/-- Configuration for a Gabagool backtest run (`GabagoolBacktestConfig`). -/
structure GabagoolBacktestConfig where
  symbol : String
  days : ℕ
  size_per_side : ℚ
  max_pair_cost : ℚ
  bid_offset : ℚ
  spread_multiplier : ℚ
deriving DecidableEq

/-- `GabagoolBacktestConfig::default()`. -/
def GabagoolBacktestConfig.default : GabagoolBacktestConfig :=
  { symbol := "BTCUSDT", days := 30, size_per_side := 10, max_pair_cost := 0.98,
    bid_offset := 0.01, spread_multiplier := 3 }

/-- Result for a single 15m window (`GabagoolWindowResult`). -/
structure GabagoolWindowResult where
  time : ℤ
  yes_fill : ℚ
  no_fill : ℚ
  pair_cost : ℚ
  locked_profit : ℚ
  traded : Bool
  btc_open : ℚ
  btc_close : ℚ
  spread : ℚ
deriving DecidableEq

/-- `Decimal::MAX`, the initial `best_pair_cost` accumulator value. -/
def decimalMax : ℚ := 79228162514264337593543950335

/-- The per-window computation of `GabagoolBacktestEngine::run` (steps 1–6 of
the loop body; all quantities for one bar are independent of the accumulators). -/
def gabagool_window (config : GabagoolBacktestConfig) (k : Kline) :
    GabagoolWindowResult :=
  let price_move_pct := if 0 < k.open_price then (k.close - k.open_price) / k.open_price else 0
  let volatility := if 0 < k.open_price then (k.high - k.low) / k.open_price else 0
  let deviation := min (max (price_move_pct * 5) (-0.40)) 0.40
  let yes_mid := 0.50 + deviation
  let no_mid := 1 - yes_mid
  let spread := min (max (volatility * config.spread_multiplier) 0.02) 0.10
  let yes_fill := min (max (yes_mid - spread / 2 - config.bid_offset) 0.05) 0.95
  let no_fill := min (max (no_mid - spread / 2 - config.bid_offset) 0.05) 0.95
  let pair_cost := yes_fill + no_fill
  let traded : Bool := pair_cost < config.max_pair_cost
  let locked_profit := if traded then config.size_per_side * (1 - pair_cost) else 0
  { time := k.open_time, yes_fill := yes_fill, no_fill := no_fill, pair_cost := pair_cost,
    locked_profit := locked_profit, traded := traded, btc_open := k.open_price,
    btc_close := k.close, spread := spread }

/-- Running cumulative sums: `runningTotals [a, b, c] = [a, a+b, a+b+c]`
(the `cumulative_profit` accumulator pushed after each window). -/
def runningTotals (xs : List ℚ) : List ℚ :=
  (xs.scanl (· + ·) 0).tail

/-- Aggregated result of a Gabagool backtest (`GabagoolBacktestResult`). -/
structure GabagoolBacktestResult where
  config : GabagoolBacktestConfig
  start_time : ℤ
  end_time : ℤ
  total_windows : ℕ
  traded_windows : ℕ
  skipped_windows : ℕ
  hit_rate : ℚ
  total_capital_used : ℚ
  total_locked_profit : ℚ
  avg_pair_cost : ℚ
  avg_locked_profit : ℚ
  best_pair_cost : ℚ
  worst_pair_cost : ℚ
  avg_spread : ℚ
  profit_curve : List EquityPoint
  windows : List GabagoolWindowResult

/-- `GabagoolBacktestEngine::run` from gabagool.rs: per-window simulation plus
the aggregates accumulated by the loop. -/
def GabagoolBacktestEngine.run (config : GabagoolBacktestConfig)
    (klines : List Kline) : GabagoolBacktestResult :=
  let windows := klines.map (gabagool_window config)
  let tradedWindows := windows.filter (·.traded)
  let traded_count := tradedWindows.length
  let total_windows := klines.length
  let cumulative_profit := (tradedWindows.map (·.locked_profit)).sum
  let profit_curve :=
    List.zipWith (fun (k : Kline) (c : ℚ) => EquityPoint.mk k.open_time c)
      klines (runningTotals (windows.map (·.locked_profit)))
  let pair_cost_sum := (tradedWindows.map (·.pair_cost)).sum
  let spread_sum := (windows.map (·.spread)).sum
  let best_raw := (windows.map (·.pair_cost)).foldl min decimalMax
  { config := config
    start_time := ((klines.head?.map Kline.open_time).getD 0)
    end_time := ((klines.getLast?.map Kline.close_time).getD 0)
    total_windows := total_windows
    traded_windows := traded_count
    skipped_windows := total_windows - traded_count
    hit_rate :=
      if 0 < total_windows then (traded_count : ℚ) / (total_windows : ℚ) * 100 else 0
    total_capital_used := (traded_count : ℚ) * (config.size_per_side * 2)
    total_locked_profit := cumulative_profit
    avg_pair_cost := if 0 < traded_count then pair_cost_sum / (traded_count : ℚ) else 0
    avg_locked_profit :=
      if 0 < traded_count then cumulative_profit / (traded_count : ℚ) else 0
    best_pair_cost := if best_raw = decimalMax then 0 else best_raw
    worst_pair_cost := (tradedWindows.map (·.pair_cost)).foldl max 0
    avg_spread := if 0 < total_windows then spread_sum / (total_windows : ℚ) else 0
    profit_curve := profit_curve
    windows := windows }

/-! ## Concrete inputs used by examples and witnesses -/

/-- The spec's literal low-trade example: `total_trades = 3`, `net_pnl = 1000`,
`win_rate = 80`, `sharpe = 2`, `drawdown = 5`, `profit_factor = 3`. -/
def c1ExampleResult : DiscoveryResult :=
  { rank := 0, strategy_type := .Vwap 20, strategy_name := "VWAP", symbol := "BTCUSDT",
    sizing_mode := .Fixed, composite_score := 0, net_pnl := 1000, gross_pnl := 1000,
    total_fees := 0, win_rate := 80, total_trades := 3, sharpe_ratio := 2,
    max_drawdown_pct := 5, profit_factor := 3, avg_trade_pnl := 0, sortino_ratio := 0,
    max_consecutive_losses := 0, avg_win_pnl := 0, avg_loss_pnl := 0, total_volume := 0,
    annualized_return_pct := 0, annualized_sharpe := 0, strategy_confidence := 0,
    hit_rate := none, avg_locked_profit := none }

/-- A Kelly window state with 12 closed trades, 6 wins, average win 10 and
average loss 5 (used to exercise the Kelly sizing formula). -/
def kellyExampleState : BtState :=
  { equity := 10000, peak_equity := 10000, max_drawdown_pct := 0, position := none,
    trades := [], recent_wins := 6, recent_total := 12, recent_avg_win := 10,
    recent_avg_loss := 5 }

/-- A zero-rate fee configuration (every taker fee evaluates to 0). -/
def zeroFeeConfig : PolymarketFeeConfig :=
  { fee_rate := 0, exponent := 2 }

/-- A deterministic two-bar signal machine: Buy on the first bar, Sell afterwards. -/
def exampleGenStep : ℕ → Kline → ℕ × SignalWithConfidence :=
  fun n _ => (n + 1, if n = 0 then ⟨.Buy, 1⟩ else ⟨.Sell, 1⟩)

/-- Two flat-then-up bars at 15-minute cadence. -/
def exampleKlines : List Kline :=
  [{ open_time := 0, open_price := 100, high := 100, low := 100, close := 100,
     volume := 0, close_time := 899999 },
   { open_time := 900000, open_price := 100, high := 110, low := 100, close := 110,
     volume := 0, close_time := 1799999 }]

/-- The single trade produced by replaying `exampleKlines` through
`exampleGenStep` with Fixed sizing and `zeroFeeConfig`. -/
def exampleTrade : BacktestTrade :=
  { entry_time := 0, exit_time := 900000, side := .Buy, entry_price := 100,
    exit_price := 110, size := 10, pnl := 100, pnl_pct := 10 }

/-- Two trades with identical +20% returns (mean 20, no negative entries). -/
def sortinoCexTrade : BacktestTrade :=
  { entry_time := 0, exit_time := 0, side := .Buy, entry_price := 100,
    exit_price := 120, size := 1, pnl := 20, pnl_pct := 20 }

/-- A single near-flat candle at 50000 (used against the arbitrage engine). -/
def exampleGabKline : Kline :=
  { open_time := 0, open_price := 50000, high := 50010, low := 49990, close := 50000,
    volume := 100, close_time := 899999 }

/-! ## Helper lemmas -/

@[simp]
theorem trackDrawdown_trades (st : BtState) (k : Kline) :
    (trackDrawdown st k).trades = st.trades := rfl

@[simp]
theorem trackDrawdown_recent_avg_win (st : BtState) (k : Kline) :
    (trackDrawdown st k).recent_avg_win = st.recent_avg_win := rfl

@[simp]
theorem updateKelly_trades (st : BtState) (pnl : ℚ) :
    (updateKelly st pnl).trades = st.trades := by
  unfold updateKelly
  split_ifs <;> rfl

theorem updateKelly_avg_win_nonneg (st : BtState) (pnl : ℚ)
    (h : 0 ≤ st.recent_avg_win) : 0 ≤ (updateKelly st pnl).recent_avg_win := by
  unfold updateKelly
  by_cases hp : 0 < pnl
  · rw [if_pos hp]
    dsimp only
    rw [if_pos (Nat.succ_pos st.recent_wins)]
    have h1 : (0 : ℚ) ≤ st.recent_avg_win * ((st.recent_wins + 1 - 1 : ℕ) : ℚ) :=
      mul_nonneg h (by positivity)
    have h2 : (0 : ℚ) ≤ ((st.recent_wins + 1 : ℕ) : ℚ) := by positivity
    exact div_nonneg (by linarith) h2
  · rw [if_neg hp]
    dsimp only
    exact h

theorem btStep_avg_win_nonneg (fee : PolymarketFeeConfig) (mode : SizingMode)
    (base baseline : ℚ) (st : BtState) (k : Kline) (sig : SignalWithConfidence)
    (h : 0 ≤ st.recent_avg_win) :
    0 ≤ (btStep fee mode base baseline st k sig).recent_avg_win := by
  unfold btStep
  cases sig.signal
  · cases st.position
    · dsimp only
      split_ifs
      · exact h
      · simpa using h
    · simpa using h
  · cases st.position
    · simpa using h
    · rw [trackDrawdown_recent_avg_win]
      exact updateKelly_avg_win_nonneg _ _ h
  · simpa using h

theorem btStep_trades_entry (fee : PolymarketFeeConfig) (mode : SizingMode)
    (base baseline : ℚ) (st : BtState) (k : Kline) (sig : SignalWithConfidence)
    (h : ∀ t ∈ st.trades, t.entry_time = 0) :
    ∀ t ∈ (btStep fee mode base baseline st k sig).trades, t.entry_time = 0 := by
  unfold btStep
  cases sig.signal
  · cases st.position
    · dsimp only
      split_ifs
      · exact h
      · simpa using h
    · simpa using h
  · cases st.position
    · simpa using h
    · rw [trackDrawdown_trades, updateKelly_trades]
      intro t ht
      rcases List.mem_append.mp ht with h1 | h1
      · exact h t h1
      · rw [List.mem_singleton.mp h1]
  · simpa using h

theorem btLoop_trades_entry {σ : Type} (fee : PolymarketFeeConfig)
    (mode : SizingMode) (base baseline : ℚ)
    (gen_step : σ → Kline → σ × SignalWithConfidence) (klines : List Kline) :
    ∀ (gs : σ) (st : BtState), (∀ t ∈ st.trades, t.entry_time = 0) →
      ∀ t ∈ (btLoop fee mode base baseline gen_step gs st klines).trades,
        t.entry_time = 0 := by
  induction klines with
  | nil => intro gs st h; exact h
  | cons k rest ih =>
      intro gs st h
      exact ih _ _ (btStep_trades_entry fee mode base baseline st k _ h)

theorem forceClose_trades_entry (fee : PolymarketFeeConfig) (baseline : ℚ)
    (klines : List Kline) (st : BtState)
    (h : ∀ t ∈ st.trades, t.entry_time = 0) :
    ∀ t ∈ (forceClose fee baseline klines st).trades, t.entry_time = 0 := by
  unfold forceClose
  rcases hpos : st.position with _ | pos <;> rcases hlast : klines.getLast? with _ | last
  · exact h
  · exact h
  · exact h
  · intro t ht
    rcases List.mem_append.mp ht with h1 | h1
    · exact h t h1
    · rw [List.mem_singleton.mp h1]

/-! ## Claim theorems -/

/-- C3: with the default config (rate 0.25, exponent 2), `calculate_taker_fee`
returns `shares * 0.25 * (p*(1-p))^2` rounded down to 4 decimal places (0 when the
rounded value is below 0.0001) for `shares > 0` and `0 < p < 1`, and returns 0
for `p ≤ 0` and `p ≥ 1`; in particular `fee(100, 0.50) = 1.5625`,
`fee(100, 0.05) = 0.0564`, `fee(100, 0) = fee(100, 1) = 0`. -/
theorem c3_taker_fee :
    (∀ shares price : ℚ, 0 < shares → 0 < price → price < 1 →
      calculate_taker_fee shares price .default =
        (let r : ℚ := (⌊shares * 0.25 * (price * (1 - price)) ^ 2 * 10000⌋ : ℚ) / 10000
         if r < 0.0001 then 0 else r)) ∧
    (∀ shares price : ℚ, price ≤ 0 → calculate_taker_fee shares price .default = 0) ∧
    (∀ shares price : ℚ, 1 ≤ price → calculate_taker_fee shares price .default = 0) ∧
    calculate_taker_fee 100 0.50 .default = 1.5625 ∧
    calculate_taker_fee 100 0.05 .default = 0.0564 ∧
    calculate_taker_fee 100 0 .default = 0 ∧
    calculate_taker_fee 100 1 .default = 0 := by
  refine ⟨?_, ?_, ?_,
    by norm_num [calculate_taker_fee, PolymarketFeeConfig.default],
    by norm_num [calculate_taker_fee, PolymarketFeeConfig.default],
    by norm_num [calculate_taker_fee, PolymarketFeeConfig.default],
    by norm_num [calculate_taker_fee, PolymarketFeeConfig.default]⟩
  · intro shares price hs hp h1
    rw [calculate_taker_fee, if_neg (by push_neg; exact ⟨hs, hp, h1⟩)]
    rfl
  · intro shares price hp
    rw [calculate_taker_fee, if_pos (Or.inr (Or.inl hp))]
  · intro shares price h1
    rw [calculate_taker_fee, if_pos (Or.inr (Or.inr h1))]

/-- C3 witness: the general formula instantiated at `shares = 100`, `price = 0.50`. -/
theorem c3_taker_fee_witness :
    (0 : ℚ) < 100 ∧ (0 : ℚ) < 0.50 ∧ (0.50 : ℚ) < 1 ∧
    calculate_taker_fee 100 0.50 .default =
      (let r : ℚ := (⌊(100 : ℚ) * 0.25 * (0.50 * (1 - 0.50)) ^ 2 * 10000⌋ : ℚ) / 10000
       if r < 0.0001 then 0 else r) :=
  ⟨by norm_num, by norm_num, by norm_num,
   c3_taker_fee.1 100 0.50 (by norm_num) (by norm_num) (by norm_num)⟩

/-- C1: `score_result` returns exactly −9999 when `total_trades < 5` (in
particular on the spec's literal example), and for results with at least 5
trades and positive initial capital it returns the sum of net pnl, the tiered
win-rate bonus, `sharpe*100`, the profit-factor bonus, the explosive bonus, the
confidence bonus and the capped sortino bonus, minus the drawdown penalty and
the streak penalty. -/
theorem c1_composite_scorer :
    (∀ (r : DiscoveryResult) (cap : ℚ), r.total_trades < 5 → score_result r cap = -9999) ∧
    score_result c1ExampleResult 10000 = -9999 ∧
    (∀ (r : DiscoveryResult) (cap : ℚ), 0 < cap → 5 ≤ r.total_trades →
      score_result r cap =
        r.net_pnl
        + (if 70 ≤ r.win_rate then (r.win_rate - 50) * 3
           else if 55 ≤ r.win_rate then (r.win_rate - 50) * 2
           else (r.win_rate - 50) * 1)
        + r.sharpe_ratio * 100
        + (if 1 < r.profit_factor then (r.profit_factor - 1) * 50
           else (r.profit_factor - 1) * 100)
        + (if 0.20 * cap < r.net_pnl then (200 : ℚ) else 0)
        + r.strategy_confidence * 3
        + min r.sortino_ratio 5 * 50
        - r.max_drawdown_pct * 3
        - (if 10 < r.max_consecutive_losses then (100 : ℚ)
           else if 7 < r.max_consecutive_losses then 50 else 0)) := by
  refine ⟨?_, ?_, ?_⟩
  · intro r cap h
    rw [score_result, if_pos h]
  · rw [score_result, if_pos (by decide)]
  · intro r cap hcap htr
    simp only [score_result]
    rw [if_neg (by omega)]
    have hiff : (0 < cap ∧ cap * 0.20 < r.net_pnl) ↔ (0.20 * cap < r.net_pnl) := by
      rw [mul_comm cap 0.20]; exact and_iff_right hcap
    simp only [hiff]
    split_ifs <;> ring

/-- C1 witness: the full-formula branch instantiated at a concrete result with
12 trades and capital 10000. -/
theorem c1_composite_scorer_witness :
    (0 : ℚ) < 10000 ∧ 5 ≤ ({ c1ExampleResult with total_trades := 12 } : DiscoveryResult).total_trades ∧
    score_result { c1ExampleResult with total_trades := 12 } 10000 =
      ({ c1ExampleResult with total_trades := 12 } : DiscoveryResult).net_pnl
      + (if 70 ≤ ({ c1ExampleResult with total_trades := 12 } : DiscoveryResult).win_rate then
           (({ c1ExampleResult with total_trades := 12 } : DiscoveryResult).win_rate - 50) * 3
         else if 55 ≤ ({ c1ExampleResult with total_trades := 12 } : DiscoveryResult).win_rate then
           (({ c1ExampleResult with total_trades := 12 } : DiscoveryResult).win_rate - 50) * 2
         else (({ c1ExampleResult with total_trades := 12 } : DiscoveryResult).win_rate - 50) * 1)
      + ({ c1ExampleResult with total_trades := 12 } : DiscoveryResult).sharpe_ratio * 100
      + (if 1 < ({ c1ExampleResult with total_trades := 12 } : DiscoveryResult).profit_factor then
           (({ c1ExampleResult with total_trades := 12 } : DiscoveryResult).profit_factor - 1) * 50
         else (({ c1ExampleResult with total_trades := 12 } : DiscoveryResult).profit_factor - 1) * 100)
      + (if 0.20 * (10000 : ℚ) < ({ c1ExampleResult with total_trades := 12 } : DiscoveryResult).net_pnl then (200 : ℚ) else 0)
      + ({ c1ExampleResult with total_trades := 12 } : DiscoveryResult).strategy_confidence * 3
      + min ({ c1ExampleResult with total_trades := 12 } : DiscoveryResult).sortino_ratio 5 * 50
      - ({ c1ExampleResult with total_trades := 12 } : DiscoveryResult).max_drawdown_pct * 3
      - (if 10 < ({ c1ExampleResult with total_trades := 12 } : DiscoveryResult).max_consecutive_losses then (100 : ℚ)
         else if 7 < ({ c1ExampleResult with total_trades := 12 } : DiscoveryResult).max_consecutive_losses then 50 else 0) :=
  ⟨by norm_num, by decide,
   c1_composite_scorer.2.2 { c1ExampleResult with total_trades := 12 } 10000
     (by norm_num) (by decide)⟩

set_option maxRecDepth 200000 in
/-- C4: the Phase-1 grid is a fixed list of 405 pair combos, 1080 triple combos,
210 quadruple combos and 48 arbitrage descriptors, hence of length in
[1500, 2000); it contains a DynamicCombo mentioning each of the 10 base
indicators, at least one Gabagool descriptor, and DynamicCombos of sizes 2, 3
and 4. -/
theorem c4_phase1_grid :
    phase1Pairs.length = 405 ∧ phase1Triples.length = 1080 ∧
    phase1Quads.length = 210 ∧ phase1Gabagool.length = 48 ∧
    1500 ≤ generate_phase1_grid.length ∧ generate_phase1_grid.length < 2000 ∧
    (∀ ind : SingleIndicatorType,
      ∃ d ∈ generate_phase1_grid, d.mentionsIndicator ind = true) ∧
    (∃ d ∈ generate_phase1_grid, d.is_gabagool = true) ∧
    (∃ d ∈ generate_phase1_grid, d.isDynamicCombo = true ∧ d.comboSize = 2) ∧
    (∃ d ∈ generate_phase1_grid, d.isDynamicCombo = true ∧ d.comboSize = 3) ∧
    (∃ d ∈ generate_phase1_grid, d.isDynamicCombo = true ∧ d.comboSize = 4) := by
  have hp : phase1Pairs.length = 405 := by decide
  have ht : phase1Triples.length = 1080 := by decide
  have hq : phase1Quads.length = 210 := by decide
  have hg : phase1Gabagool.length = 48 := by decide
  have hlen : generate_phase1_grid.length = 1743 := by
    simp only [generate_phase1_grid, List.length_append, hp, ht, hq, hg]
  have hall : ∀ ind : SingleIndicatorType,
      generate_phase1_grid.any (fun d => d.mentionsIndicator ind) = true := by decide
  have hgab : generate_phase1_grid.any (fun d => d.is_gabagool) = true := by decide
  have hs2 : generate_phase1_grid.any
      (fun d => d.isDynamicCombo && d.comboSize == 2) = true := by decide
  have hs3 : generate_phase1_grid.any
      (fun d => d.isDynamicCombo && d.comboSize == 3) = true := by decide
  have hs4 : generate_phase1_grid.any
      (fun d => d.isDynamicCombo && d.comboSize == 4) = true := by decide
  refine ⟨hp, ht, hq, hg, by omega, by omega, ?_, ?_, ?_, ?_, ?_⟩
  · intro ind
    obtain ⟨d, hd, hok⟩ := List.any_eq_true.mp (hall ind)
    exact ⟨d, hd, hok⟩
  · obtain ⟨d, hd, hok⟩ := List.any_eq_true.mp hgab
    exact ⟨d, hd, hok⟩
  · obtain ⟨d, hd, hok⟩ := List.any_eq_true.mp hs2
    exact ⟨d, hd, by simpa using hok⟩
  · obtain ⟨d, hd, hok⟩ := List.any_eq_true.mp hs3
    exact ⟨d, hd, by simpa using hok⟩
  · obtain ⟨d, hd, hok⟩ := List.any_eq_true.mp hs4
    exact ⟨d, hd, by simpa using hok⟩

/-- C6 counterexample: at cycle 3 the code's budget is
`min(300 + 3*50, 1000) = 450`, not the claimed `min(300 + 50*(3-3), 1000) = 300`. -/
theorem c6_budget_counterexample :
    ml_guided_total_budget 3 = 450 ∧
    ml_guided_total_budget 3 ≠ min (300 + 50 * (3 - 3)) 1000 := by
  decide

/-- C6 (amended): for every cycle `c ≥ 3` the ML-guided generator's total
candidate budget equals `min(300 + 50*c, 1000)` (not `min(300 + 50*(c-3), 1000)`),
split exactly 60% exploitation, 20% crossover and 20% exploration. -/
theorem c6_ml_budget (cycle : ℕ) (h3 : 3 ≤ cycle) :
    ml_guided_total_budget cycle = min (300 + 50 * cycle) 1000 ∧
    (ml_guided_exploit_budget cycle : ℚ) = 60 / 100 * (ml_guided_total_budget cycle : ℚ) ∧
    (ml_guided_crossover_budget cycle : ℚ) = 20 / 100 * (ml_guided_total_budget cycle : ℚ) ∧
    (ml_guided_explore_budget cycle : ℚ) = 20 / 100 * (ml_guided_total_budget cycle : ℚ) := by
  obtain ⟨k, hk⟩ : ∃ k, ml_guided_total_budget cycle = 50 * k := by
    unfold ml_guided_total_budget
    rcases le_total (300 + cycle * 50) 1000 with h | h
    · exact ⟨6 + cycle, by rw [min_eq_left h]; ring⟩
    · exact ⟨20, by rw [min_eq_right h]⟩
  have hex : ml_guided_exploit_budget cycle = 30 * k := by
    unfold ml_guided_exploit_budget
    rw [hk]; omega
  have hcr : ml_guided_crossover_budget cycle = 10 * k := by
    unfold ml_guided_crossover_budget
    rw [hk]; omega
  have hxp : ml_guided_explore_budget cycle = 10 * k := by
    unfold ml_guided_explore_budget
    rw [hk, hex, hcr]; omega
  refine ⟨by unfold ml_guided_total_budget; omega, ?_, ?_, ?_⟩
  · rw [hex, hk]; push_cast; ring
  · rw [hcr, hk]; push_cast; ring
  · rw [hxp, hk]; push_cast; ring

/-- C6 witness: the amended budget formula instantiated at cycle 4
(budget 500, split 300/100/100). -/
theorem c6_ml_budget_witness :
    3 ≤ 4 ∧
    (ml_guided_total_budget 4 = min (300 + 50 * 4) 1000 ∧
      (ml_guided_exploit_budget 4 : ℚ) = 60 / 100 * (ml_guided_total_budget 4 : ℚ) ∧
      (ml_guided_crossover_budget 4 : ℚ) = 20 / 100 * (ml_guided_total_budget 4 : ℚ) ∧
      (ml_guided_explore_budget 4 : ℚ) = 20 / 100 * (ml_guided_total_budget 4 : ℚ)) :=
  ⟨by decide, c6_ml_budget 4 (by decide)⟩

/-- C10: a composite signal generator in PrimaryConfirmed mode holding fewer than
two sub-generators emits Hold on every bar: with an empty sub-list it holds, and
with exactly one sub-generator no confirming secondary exists, so the primary's
Buy/Sell is never emitted. -/
theorem c10_primary_confirmed_short (signals : List SignalWithConfidence)
    (h : signals.length < 2) :
    combo_on_bar .PrimaryConfirmed signals = .hold := by
  match signals with
  | [] => rfl
  | [s] =>
      simp only [combo_on_bar, List.any_nil, Bool.false_eq_true, if_false]
      split_ifs <;> rfl
  | a :: b :: rest => simp only [List.length_cons] at h; omega

/-- C10 witness: a single Buy sub-result still yields Hold. -/
theorem c10_primary_confirmed_short_witness :
    ([({ signal := .Buy, confidence := 1 } : SignalWithConfidence)]).length < 2 ∧
    combo_on_bar .PrimaryConfirmed [({ signal := .Buy, confidence := 1 } : SignalWithConfidence)] =
      .hold :=
  ⟨by decide,
   c10_primary_confirmed_short [{ signal := .Buy, confidence := 1 }] (by decide)⟩

/-- C2: in the bar-by-bar evaluator under Kelly sizing, the per-bar step
preserves non-negativity of the running average win (which holds initially), and
on any state with a non-negative average win the Kelly position size equals
`((p*b - (1-p))/b)*100` with `p = wins/total`, `b = avg_win/avg_loss`, clamped
to [0, 25], when the window has at least 10 closed trades and a strictly
positive average loss, and `base_position_pct` in every other case. -/
theorem c2_kelly_sizing :
    (∀ (fee : PolymarketFeeConfig) (mode : SizingMode) (base baseline : ℚ)
        (st : BtState) (k : Kline) (sig : SignalWithConfidence),
      0 ≤ st.recent_avg_win → 0 ≤ (btStep fee mode base baseline st k sig).recent_avg_win) ∧
    (∀ initial_capital : ℚ, 0 ≤ (initBtState initial_capital).recent_avg_win) ∧
    (∀ (st : BtState) (confidence base_position_pct : ℚ), 0 ≤ st.recent_avg_win →
      compute_size_pct .Kelly st confidence base_position_pct =
        if 10 ≤ st.recent_total ∧ 0 < st.recent_avg_loss then
          let p : ℚ := (st.recent_wins : ℚ) / (st.recent_total : ℚ)
          let b : ℚ := st.recent_avg_win / st.recent_avg_loss
          min (max (((p * b - (1 - p)) / b) * 100) 0) 25
        else base_position_pct) := by
  refine ⟨btStep_avg_win_nonneg, fun _ => le_refl 0, ?_⟩
  intro st confidence base_position_pct hwin
  simp only [compute_size_pct]
  split_ifs with hcond hb
  · rfl
  · -- b is not positive; with 0 ≤ avg_win and 0 < avg_loss this forces b = 0.
    have hb0 : st.recent_avg_win / st.recent_avg_loss = 0 :=
      le_antisymm (not_lt.mp hb) (div_nonneg hwin hcond.2.le)
    rw [hb0]
    rw [div_zero, zero_mul]
  · rfl

/-- C2 witness: the Kelly formula at a window with 12 trades, 6 wins,
avg_win 10, avg_loss 5. -/
theorem c2_kelly_sizing_witness :
    0 ≤ kellyExampleState.recent_avg_win ∧
    compute_size_pct .Kelly kellyExampleState 1 10 =
      (if 10 ≤ kellyExampleState.recent_total ∧ 0 < kellyExampleState.recent_avg_loss then
        let p : ℚ := (kellyExampleState.recent_wins : ℚ) / (kellyExampleState.recent_total : ℚ)
        let b : ℚ := kellyExampleState.recent_avg_win / kellyExampleState.recent_avg_loss
        min (max (((p * b - (1 - p)) / b) * 100) 0) 25
      else 10) :=
  ⟨by norm_num [kellyExampleState],
   c2_kelly_sizing.2.2 kellyExampleState 1 10 (by norm_num [kellyExampleState])⟩

/-- C9: every trade appended by the bar-by-bar evaluator — through the in-loop
Sell close as well as the end-of-data force close — carries `entry_time = 0`;
the entry bar's timestamp is never recorded on any trade. -/
theorem c9_entry_time_zero {σ : Type}
    (gen_step : σ → Kline → σ × SignalWithConfidence) (gen_init : σ)
    (klines : List Kline) (initial_capital base_position_pct : ℚ)
    (sizing_mode : SizingMode) (fee_config : PolymarketFeeConfig) :
    ∀ t ∈ (backtestCore gen_step gen_init klines initial_capital base_position_pct
        sizing_mode fee_config).trades, t.entry_time = 0 := by
  unfold backtestCore
  apply forceClose_trades_entry
  apply btLoop_trades_entry
  intro t ht
  simp [initBtState] at ht

/-- C9 witness: the two-bar Buy/Sell replay records exactly one trade, with
`entry_time = 0` even though its entry bar opened at time 0 ≠ its exit bar. -/
theorem c9_entry_time_zero_witness :
    exampleTrade ∈ (backtestCore exampleGenStep 0 exampleKlines 10000 10 .Fixed
      zeroFeeConfig).trades ∧
    exampleTrade.entry_time = 0 := by
  have htr : (backtestCore exampleGenStep 0 exampleKlines 10000 10 .Fixed
      zeroFeeConfig).trades = [exampleTrade] := by
    norm_num [backtestCore, btLoop, btStep, forceClose, baselineOf, initBtState,
      compute_size_pct, estimate_poly_probability, calculate_taker_fee, roundTo,
      trackDrawdown, updateKelly, exampleGenStep, exampleKlines, exampleTrade,
      zeroFeeConfig]
  have hmem : exampleTrade ∈ (backtestCore exampleGenStep 0 exampleKlines 10000 10
      .Fixed zeroFeeConfig).trades := by
    rw [htr]; exact List.mem_singleton_self _
  exact ⟨hmem,
    c9_entry_time_zero exampleGenStep 0 exampleKlines 10000 10 .Fixed zeroFeeConfig
      exampleTrade hmem⟩

/-- C5 counterexample: two trades with +20% returns each (no negatives, mean 20)
produce Sortino 200, not the claimed cap `min (10*20) 99 = 99`. -/
theorem c5_sortino_counterexample :
    calculate_sortino [sortinoCexTrade, sortinoCexTrade] = 200 ∧
    calculate_sortino [sortinoCexTrade, sortinoCexTrade] ≠ min ((10 : ℚ) * 20) 99 := by
  have h : calculate_sortino [sortinoCexTrade, sortinoCexTrade] = 200 := by
    norm_num [calculate_sortino, sortinoCexTrade, roundTo, List.filter]
  refine ⟨h, ?_⟩
  rw [h]
  norm_num

/-- C5 (amended): for fewer than 2 trades the Sortino ratio is 0; with at least
2 trades, no negative per-trade return and a positive mean it equals `mean * 10`
rounded to two decimals (the source has no 99 cap: 99 is only the conversion
fallback); with a negative return present it equals the mean over the
root-mean-square of the negative returns, rounded to two decimals, or 0 when
that downside deviation is below the 1e-10 epsilon. -/
theorem c5_sortino_amended :
    (∀ trades : List BacktestTrade, trades.length < 2 → calculate_sortino trades = 0) ∧
    (∀ trades : List BacktestTrade, 2 ≤ trades.length →
      (∀ r ∈ trades.map BacktestTrade.pnl_pct, 0 ≤ r) →
      0 < (trades.map BacktestTrade.pnl_pct).sum /
          ((trades.map BacktestTrade.pnl_pct).length : ℚ) →
      calculate_sortino trades =
        roundTo 2 ((trades.map BacktestTrade.pnl_pct).sum /
          ((trades.map BacktestTrade.pnl_pct).length : ℚ) * 10)) ∧
    (∀ trades : List BacktestTrade, 2 ≤ trades.length →
      (∃ r ∈ trades.map BacktestTrade.pnl_pct, r < 0) →
      calculate_sortino trades =
        (let returns := trades.map BacktestTrade.pnl_pct
         let mean := returns.sum / (returns.length : ℚ)
         let negs := returns.filter fun r => r < 0
         let downside_dev : ℝ :=
           Real.sqrt ((((negs.map fun r => r ^ 2).sum / (negs.length : ℚ) : ℚ) : ℝ))
         if downside_dev < 1 / 10 ^ 10 then 0
         else roundToR 2 ((mean : ℝ) / downside_dev))) := by
  refine ⟨?_, ?_, ?_⟩
  · intro trades h
    rw [calculate_sortino, if_pos h]
  · intro trades h2 hnn hmean
    simp only [calculate_sortino]
    rw [if_neg (by omega)]
    have hfil : (trades.map BacktestTrade.pnl_pct).filter (fun r => decide (r < 0)) = [] := by
      rw [List.filter_eq_nil_iff]
      intro a ha
      simpa using not_lt.mpr (hnn a ha)
    rw [hfil]
    simp only [List.isEmpty_nil, if_true]
    rw [if_pos hmean]
  · intro trades h2 hex
    obtain ⟨r, hr, hrneg⟩ := hex
    simp only [calculate_sortino]
    rw [if_neg (by omega)]
    have hmem : r ∈ (trades.map BacktestTrade.pnl_pct).filter (fun r => decide (r < 0)) :=
      List.mem_filter.mpr ⟨hr, by simpa using hrneg⟩
    have hne : ((trades.map BacktestTrade.pnl_pct).filter
        (fun r => decide (r < 0))).isEmpty = false := by
      rcases hfe : (trades.map BacktestTrade.pnl_pct).filter (fun r => decide (r < 0)) with
        _ | ⟨x, xs⟩
      · rw [hfe] at hmem; simp at hmem
      · rfl
    rw [hne]
    simp only [Bool.false_eq_true, if_false]

/-- C5 witness: the amended zero branch at the empty trade list. -/
theorem c5_sortino_amended_witness :
    ([] : List BacktestTrade).length < 2 ∧ calculate_sortino [] = 0 :=
  ⟨by decide, c5_sortino_amended.1 [] (by decide)⟩

/-- C8: the bar-by-bar evaluation is deterministic: two runs over equal inputs
(generator machine, bar list, capital, sizing mode, fee config) produce equal
metrics records, and hence identical decimal-to-string stringified metric
fields for the stored record. -/
theorem c8_deterministic {σ : Type}
    (gen_step gen_step' : σ → Kline → σ × SignalWithConfidence)
    (gen_init gen_init' : σ) (klines klines' : List Kline)
    (initial_capital initial_capital' base_position_pct base_position_pct' : ℚ)
    (sizing_mode sizing_mode' : SizingMode) (fee_config fee_config' : PolymarketFeeConfig)
    (hstep : gen_step = gen_step') (hinit : gen_init = gen_init')
    (hk : klines = klines') (hcap : initial_capital = initial_capital')
    (hbase : base_position_pct = base_position_pct')
    (hmode : sizing_mode = sizing_mode') (hfee : fee_config = fee_config') :
    run_generic_backtest gen_step gen_init klines initial_capital base_position_pct
        sizing_mode fee_config =
      run_generic_backtest gen_step' gen_init' klines' initial_capital'
        base_position_pct' sizing_mode' fee_config' ∧
    stringifiedMetrics (run_generic_backtest gen_step gen_init klines initial_capital
        base_position_pct sizing_mode fee_config) =
      stringifiedMetrics (run_generic_backtest gen_step' gen_init' klines'
        initial_capital' base_position_pct' sizing_mode' fee_config') := by
  subst hstep hinit hk hcap hbase hmode hfee
  exact ⟨rfl, rfl⟩

/-- C8 witness: determinism at the concrete two-bar replay. -/
theorem c8_deterministic_witness :
    run_generic_backtest exampleGenStep 0 exampleKlines 10000 10 .Fixed zeroFeeConfig =
      run_generic_backtest exampleGenStep 0 exampleKlines 10000 10 .Fixed zeroFeeConfig ∧
    stringifiedMetrics
        (run_generic_backtest exampleGenStep 0 exampleKlines 10000 10 .Fixed zeroFeeConfig) =
      stringifiedMetrics
        (run_generic_backtest exampleGenStep 0 exampleKlines 10000 10 .Fixed zeroFeeConfig) :=
  c8_deterministic exampleGenStep exampleGenStep 0 0 exampleKlines exampleKlines
    10000 10000 10 10 .Fixed .Fixed zeroFeeConfig zeroFeeConfig
    rfl rfl rfl rfl rfl rfl rfl

/-- Arithmetic core of the pair-cost bound: with non-negative bid offset, the
clamped YES and NO fills sum below 1 (the deviation clamp keeps the mids in
[0.1, 0.9] and the spread floor removes at least 0.02 when unclamped). -/
theorem pairCostAux (move vol mult off : ℚ) (hoff : 0 ≤ off) :
    min (max (0.50 + min (max (move * 5) (-0.40)) 0.40
        - min (max (vol * mult) 0.02) 0.10 / 2 - off) 0.05) 0.95
    + min (max (1 - (0.50 + min (max (move * 5) (-0.40)) 0.40)
        - min (max (vol * mult) 0.02) 0.10 / 2 - off) 0.05) 0.95 < 1 := by
  set dev := min (max (move * 5) (-0.40)) 0.40 with hdev
  set s := min (max (vol * mult) 0.02) 0.10 with hs
  have hdev_hi : dev ≤ 0.40 := min_le_right _ _
  have hdev_lo : (-0.40 : ℚ) ≤ dev := le_min (le_max_right _ _) (by norm_num)
  have hs_lo : (0.02 : ℚ) ≤ s := le_min (le_max_right _ _) (by norm_num)
  have h1 : min (max (0.50 + dev - s / 2 - off) 0.05) 0.95 ≤
      max (0.50 + dev - s / 2 - off) 0.05 := min_le_left _ _
  have h2 : min (max (1 - (0.50 + dev) - s / 2 - off) 0.05) 0.95 ≤
      max (1 - (0.50 + dev) - s / 2 - off) 0.05 := min_le_left _ _
  rcases max_cases (0.50 + dev - s / 2 - off) (0.05 : ℚ) with ⟨e1, b1⟩ | ⟨e1, b1⟩ <;>
    rcases max_cases (1 - (0.50 + dev) - s / 2 - off) (0.05 : ℚ) with ⟨e2, b2⟩ | ⟨e2, b2⟩ <;>
    rw [e1, e2] <;> rw [e1] at h1 <;> rw [e2] at h2 <;> linarith

/-- With a non-negative bid offset every simulated window has `pair_cost < 1`. -/
theorem gabagool_window_pair_cost_lt_one (config : GabagoolBacktestConfig)
    (k : Kline) (hoff : 0 ≤ config.bid_offset) :
    (gabagool_window config k).pair_cost < 1 := by
  unfold gabagool_window
  dsimp only
  exact pairCostAux _ _ _ _ hoff

/-- With a non-negative bid offset and positive per-side size, a traded window
locks strictly positive profit. -/
theorem gabagool_window_locked_pos (config : GabagoolBacktestConfig) (k : Kline)
    (hoff : 0 ≤ config.bid_offset) (hsize : 0 < config.size_per_side)
    (htr : (gabagool_window config k).traded = true) :
    0 < (gabagool_window config k).locked_profit := by
  have hpc := gabagool_window_pair_cost_lt_one config k hoff
  unfold gabagool_window at htr ⊢
  dsimp only at htr ⊢
  rw [if_pos htr]
  unfold gabagool_window at hpc
  dsimp only at hpc
  exact mul_pos hsize (by linarith)

/-- Every window's locked profit is non-negative (0 when skipped). -/
theorem gabagool_window_locked_nonneg (config : GabagoolBacktestConfig) (k : Kline)
    (hoff : 0 ≤ config.bid_offset) (hsize : 0 < config.size_per_side) :
    0 ≤ (gabagool_window config k).locked_profit := by
  rcases htr : (gabagool_window config k).traded with _ | _
  · unfold gabagool_window at htr ⊢
    dsimp only at htr ⊢
    rw [htr]
    simp
  · exact le_of_lt (gabagool_window_locked_pos config k hoff hsize htr)

/-- The head of a `scanl` is its accumulator. -/
theorem scanl_head_eq (f : ℚ → ℚ → ℚ) (b : ℚ) (l : List ℚ) :
    (List.scanl f b l).head? = some b := by
  cases l <;> simp [List.scanl]

/-- Partial sums of non-negative values form a non-decreasing chain. -/
theorem chain_scanl_add (l : List ℚ) (h : ∀ x ∈ l, 0 ≤ x) :
    ∀ acc : ℚ, List.Chain' (· ≤ ·) (List.scanl (· + ·) acc l) := by
  induction l with
  | nil => intro acc; simp [List.scanl]
  | cons x xs ih =>
      intro acc
      rw [List.scanl_cons]
      apply List.chain'_cons'.mpr
      refine ⟨?_, ih (fun y hy => h y (List.mem_cons_of_mem x hy)) (acc + x)⟩
      intro y hy
      have hx : 0 ≤ x := h x (List.mem_cons_self x xs)
      simp only [List.append_eq, List.nil_append, scanl_head_eq, Option.mem_def,
        Option.some.injEq] at hy
      linarith [hy]

/-- Zipping a non-decreasing rational chain into equity points preserves the
chain on the `equity` field. -/
theorem chain_profit_curve (ks : List Kline) (cs : List ℚ)
    (h : List.Chain' (· ≤ ·) cs) :
    List.Chain' (fun a b => a.equity ≤ b.equity)
      (List.zipWith (fun (k : Kline) (c : ℚ) => EquityPoint.mk k.open_time c) ks cs) := by
  induction ks generalizing cs with
  | nil => simp
  | cons k ks ih =>
      cases cs with
      | nil => simp
      | cons c cs =>
          rw [List.zipWith_cons_cons]
          apply List.chain'_cons'.mpr
          constructor
          · intro p hp
            cases ks with
            | nil => simp at hp
            | cons k2 ks' =>
                cases cs with
                | nil => simp at hp
                | cons c2 cs' =>
                    rw [List.zipWith_cons_cons] at hp
                    simp only [List.head?_cons, Option.mem_def, Option.some.injEq] at hp
                    subst hp
                    exact (List.chain'_cons.mp h).1
          · exact ih cs h.tail

/-- C7: with a non-negative bid offset, positive per-side size and positive open
prices, the arbitrage evaluator produces `pair_cost < 1` on every window, every
traded window has `locked_profit > 0`, and the cumulative profit curve is
monotonically non-decreasing. -/
theorem c7_arbitrage_invariants (config : GabagoolBacktestConfig)
    (klines : List Kline) (hoff : 0 ≤ config.bid_offset)
    (hsize : 0 < config.size_per_side)
    (hopen : ∀ k ∈ klines, 0 < k.open_price) :
    (∀ w ∈ (GabagoolBacktestEngine.run config klines).windows, w.pair_cost < 1) ∧
    (∀ w ∈ (GabagoolBacktestEngine.run config klines).windows,
      w.traded = true → 0 < w.locked_profit) ∧
    List.Chain' (fun a b => a.equity ≤ b.equity)
      (GabagoolBacktestEngine.run config klines).profit_curve := by
  have hwin : (GabagoolBacktestEngine.run config klines).windows =
      klines.map (gabagool_window config) := rfl
  refine ⟨?_, ?_, ?_⟩
  · intro w hw
    rw [hwin] at hw
    obtain ⟨k, hk, rfl⟩ := List.mem_map.mp hw
    exact gabagool_window_pair_cost_lt_one config k hoff
  · intro w hw htr
    rw [hwin] at hw
    obtain ⟨k, hk, rfl⟩ := List.mem_map.mp hw
    exact gabagool_window_locked_pos config k hoff hsize htr
  · have hcurve : (GabagoolBacktestEngine.run config klines).profit_curve =
        List.zipWith (fun (k : Kline) (c : ℚ) => EquityPoint.mk k.open_time c) klines
          (runningTotals ((klines.map (gabagool_window config)).map (·.locked_profit))) := rfl
    rw [hcurve]
    apply chain_profit_curve
    apply List.Chain'.tail
    apply chain_scanl_add
    intro x hx
    obtain ⟨w, hwmem, rfl⟩ := List.mem_map.mp hx
    obtain ⟨k, hk, rfl⟩ := List.mem_map.mp hwmem
    exact gabagool_window_locked_nonneg config k hoff hsize

/-- C7 witness: the default configuration over one near-flat candle satisfies
all three hypotheses. -/
theorem c7_arbitrage_invariants_witness :
    0 ≤ GabagoolBacktestConfig.default.bid_offset ∧
    0 < GabagoolBacktestConfig.default.size_per_side ∧
    (∀ k ∈ [exampleGabKline], 0 < k.open_price) ∧
    ((∀ w ∈ (GabagoolBacktestEngine.run .default [exampleGabKline]).windows,
        w.pair_cost < 1) ∧
      (∀ w ∈ (GabagoolBacktestEngine.run .default [exampleGabKline]).windows,
        w.traded = true → 0 < w.locked_profit) ∧
      List.Chain' (fun a b => a.equity ≤ b.equity)
        (GabagoolBacktestEngine.run .default [exampleGabKline]).profit_curve) := by
  have h1 : (0 : ℚ) ≤ GabagoolBacktestConfig.default.bid_offset := by
    norm_num [GabagoolBacktestConfig.default]
  have h2 : (0 : ℚ) < GabagoolBacktestConfig.default.size_per_side := by
    norm_num [GabagoolBacktestConfig.default]
  have h3 : ∀ k ∈ [exampleGabKline], 0 < k.open_price := by
    intro k hk
    rw [List.mem_singleton.mp hk]
    norm_num [exampleGabKline]
  exact ⟨h1, h2, h3, c7_arbitrage_invariants .default [exampleGabKline] h1 h2 h3⟩

end PolyDiscover








